import Mathlib

/-!
Verification of the `qianbin/json-rpc` JSON-RPC 2.0 engine against its
natural-language specification.

The development shallowly embeds the two source files:

  * `src/types.ts` — the `Payload` shape and `Payload.validate`
    (the `validator-ts` combinators `V.optional` / `V.nullable` pass
    `undefined` / `null` respectively and otherwise apply the wrapped rule;
    field access on the decoded JSON value yields `undefined` — here
    `Option.none` — when the field is missing);
  * `src/index.ts` — the `JSONRPC` class: `call`, `notify`, `receive`,
    `setError`, `serve`, `_handleRequest`, `_handleResponse` and the
    `JSONRPC.Error` taxonomy.

JavaScript promises are modelled by explicit outcomes; the embedder's
transport `send` is a parameter telling whether its promise resolves or
rejects; asynchronous settlement of pending calls is recorded as an
explicit event list.  `JSON.parse` is a host primitive, so `receive`
takes its outcome (`Except String Json`) rather than raw text.
-/

/-- A decoded JSON value (`JSON.parse` output).  Numbers are modelled as
integers, which covers every value the claims exercise. -/
inductive Json where
  | null : Json
  | bool : Bool → Json
  | num : Int → Json
  | str : String → Json
  | arr : List Json → Json
  | obj : List (String × Json) → Json
deriving Repr

namespace Json

/-- JavaScript property access `v[k]` on a decoded value: `none` models
`undefined` (missing field or non-object receiver). -/
def getField : Json → String → Option Json
  | .obj fs, k => (fs.find? (fun p => p.1 = k)).map (·.2)
  | _, _ => none

end Json

/-- Run the next scheme rule only when the previous ones passed
(`V.validate` surfaces the first failing rule, in scheme key order). -/
def seqCheck : Except String Unit → Except String Unit → Except String Unit
  | .error e, _ => .error e
  | .ok _, b => b

/-- Scheme rule `jsonrpc: v => v === '2.0' ? '' : "expected '2.0'"`,
applied to the field's value (`none` = missing, i.e. `undefined`). -/
def checkTag : Option Json → Except String Unit
  | some (.str s) => if s = "2.0" then .ok () else .error "expected '2.0'"
  | _ => .error "expected '2.0'"

/-- Scheme rule `id: V.nullable(V.optional(number-or-string))`. -/
def checkIdRule : Option Json → Except String Unit
  | none => .ok ()
  | some .null => .ok ()
  | some (.num _) => .ok ()
  | some (.str _) => .ok ()
  | some _ => .error "expected number or string"

/-- Scheme rule `method: V.optional(non-empty string)` (`requestScheme`). -/
def checkMethodRule : Option Json → Except String Unit
  | none => .ok ()
  | some (.str s) => if s.length > 0 then .ok () else .error "expected string"
  | some _ => .error "expected string"

/-- Scheme rule `params: v => Array.isArray(v) ? '' : 'expected array'`
(`requestScheme` — note: not wrapped in `V.optional`). -/
def checkParamsRule : Option Json → Except String Unit
  | some (.arr _) => .ok ()
  | _ => .error "expected array"

/-- Scheme rule `error: V.optional({code: number, message: string,
data: free})` (`responseScheme`). -/
def checkErrorRule : Option Json → Except String Unit
  | none => .ok ()
  | some e =>
    seqCheck
      (match e.getField "code" with
        | some (.num _) => .ok ()
        | _ => .error "code: expected number")
      (match e.getField "message" with
        | some (.str _) => .ok ()
        | _ => .error "message: expected string")

/-- `Payload.validate`, request direction: the `requestScheme` (spread of
`baseScheme` overriding `method` and `params`; `result` and `error` stay
unconstrained). -/
def validateRequest (v : Json) : Except String Unit :=
  seqCheck (checkTag (v.getField "jsonrpc")) <|
  seqCheck (checkIdRule (v.getField "id")) <|
  seqCheck (checkMethodRule (v.getField "method"))
    (checkParamsRule (v.getField "params"))

/-- `Payload.validate`, response direction: the `responseScheme` (spread
of `baseScheme` overriding `error`; `method`, `params`, `result` stay
unconstrained). -/
def validateResponse (v : Json) : Except String Unit :=
  seqCheck (checkTag (v.getField "jsonrpc")) <|
  seqCheck (checkIdRule (v.getField "id"))
    (checkErrorRule (v.getField "error"))

/-- `Payload.validate(payload, isRequest)` from `src/types.ts`. -/
def validate (v : Json) (isRequest : Bool) : Except String Unit :=
  if isRequest then validateRequest v else validateResponse v

/-- Whether a validation verdict is success. -/
def okB : Except String Unit → Bool
  | .ok _ => true
  | .error _ => false

/-! ## The `JSONRPC` engine (`src/index.ts`) -/

/-- A correlation identifier: `generateId` returns `number | string`. -/
inductive RpcId where
  | num : Int → RpcId
  | str : String → RpcId
deriving DecidableEq, Repr

/-- Emitting an identifier on the wire keeps its JS value. -/
def RpcId.toJson : RpcId → Json
  | .num n => .num n
  | .str s => .str s

/-- The `Map` key a decoded JS value can match under SameValueZero, given
that only `number | string` keys are ever stored: `null`, `undefined` and
other shapes match no stored key. -/
def Json.asId : Json → Option RpcId
  | .num n => some (.num n)
  | .str s => some (.str s)
  | _ => none

/-- JavaScript truthiness of a decoded JSON value. -/
def jsTruthy : Json → Bool
  | .null => false
  | .bool b => b
  | .num n => decide (n ≠ 0)
  | .str s => decide (s ≠ "")
  | .arr _ => true
  | .obj _ => true

/-- A `JSONRPC.Error` instance: message, code, optional data
(`src/index.ts`, `class Error extends errorClass`). -/
structure RpcError where
  message : String
  code : Int
  data : Option Json := none
deriving Repr

/-- A JavaScript error value: either a structured `JSONRPC.Error`
(`instanceof JSONRPC.Error` holds) or any other error carrying a message. -/
inductive JsError where
  | plain : String → JsError
  | rpc : RpcError → JsError
deriving Repr

/-- `err.message` of a JS error. -/
def JsError.message : JsError → String
  | .plain m => m
  | .rpc e => e.message

/-- `JSONRPC.Error.parseError(reason)`. -/
def parseError (reason : String) : RpcError :=
  { message := "Parse error: " ++ reason, code := -32700 }

/-- `JSONRPC.Error.invalidRequest(reason)`. -/
def invalidRequest (reason : String) : RpcError :=
  { message := "Invalid request: " ++ reason, code := -32600 }

/-- `JSONRPC.Error.methodNotFound()`. -/
def methodNotFound : RpcError :=
  { message := "Method not found", code := -32601 }

/-- `JSONRPC.Error.internalError(reason)`. -/
def internalError (reason : String) : RpcError :=
  { message := "Internal error: " ++ reason, code := -32603 }

/-- The error member of a Response-Error envelope:
`{code, message, data}` with `data` omitted by `JSON.stringify` when
`undefined`. -/
structure ErrorObj where
  code : Int
  message : String
  data : Option Json := none
deriving Repr

/-- An outbound envelope as serialized by `JSON.stringify`: `jsonrpc` is
always `'2.0'`; `none` models an omitted (`undefined`) field; an explicit
`null` identifier is `some Json.null`. -/
structure OutPayload where
  id : Option Json := none
  method : Option String := none
  params : Option (List Json) := none
  result : Option Json := none
  error : Option ErrorObj := none
deriving Repr

/-- `JSONRPC.Error.asPayload(id)`. -/
def RpcError.asPayload (e : RpcError) (id : Option Json) : OutPayload :=
  { id := id, error := some { code := e.code, message := e.message, data := e.data } }

/-- How a settled promise of a pending call completed: `resolved none`
models resolving with `undefined`. -/
inductive Outcome where
  | resolved : Option Json → Outcome
  | rejected : JsError → Outcome

/-- An observable effect: either the embedder's transport `send` was
invoked with an envelope, or a pending call's promise settled. -/
inductive Event where
  | sent : OutPayload → Bool → Event
  | settled : Nat → Outcome → Event

/-- A method implementation's behaviour: applied to the spread `params`,
it either returns a value (possibly `undefined`) or throws. -/
def ImplSpec := List Json → Except JsError (Option Json)

/-- `JSONRPC.Handler`: `(method) => impl | undefined`; the engine passes
`payload.method!`, which is `undefined` (`none`) when the field is absent. -/
def Handler := Option String → Option ImplSpec

/-- The mutable state of one `JSONRPC` instance: the `_ongoings`
correlation table (insertion-ordered, unique keys, values are tokens
naming the pending call's promise), `_error`, the default generator's
counter, and the served handler. -/
structure EngineState where
  ongoings : List (RpcId × Nat) := []
  error : Option JsError := none
  nextId : Int := 0
  handler : Option Handler := none

/-- `Map.set`: overwrite in place if the key exists, else append. -/
def mapSet : List (RpcId × Nat) → RpcId → Nat → List (RpcId × Nat)
  | [], k, v => [(k, v)]
  | (k', v') :: rest, k, v =>
    if k' = k then (k, v) :: rest else (k', v') :: mapSet rest k v

/-- `Map.get`. -/
def mapGet (m : List (RpcId × Nat)) (k : RpcId) : Option Nat :=
  (m.find? (fun p => p.1 = k)).map (·.2)

/-- `Map.delete`: remove the (unique) entry with the key. -/
def mapDelete : List (RpcId × Nat) → RpcId → List (RpcId × Nat)
  | [], _ => []
  | (k', v') :: rest, k =>
    if k' = k then rest else (k', v') :: mapDelete rest k

/-- The `_send` wrapper installed by the constructor: while `_error` is
set every send attempt rejects with it without invoking the embedder's
transport; otherwise the transport is invoked and its promise's outcome
(`transport`) is returned. -/
def sendAttempt (st : EngineState) (transport : Except JsError Unit)
    (p : OutPayload) (isRequest : Bool) : Except JsError Unit × List Event :=
  match st.error with
  | some e => (.error e, [])
  | none => (transport, [.sent p isRequest])

/-- What `call` returns: the promise is pending (awaiting a response) or
already rejected. -/
inductive CallOutcome where
  | pending
  | rejected : JsError → CallOutcome

/-- Result of one `call` invocation. -/
structure CallResult where
  st : EngineState
  events : List Event
  outcome : CallOutcome
  id : RpcId

/-- `JSONRPC.call(method, ...params)` with the default auto-increment
generator; `tok` names the promise this invocation returns; `transport`
is the outcome of the embedder's `send` if it gets invoked. -/
def call (st : EngineState) (tok : Nat) (method : String) (params : List Json)
    (transport : Except JsError Unit) : CallResult :=
  let id := RpcId.num st.nextId
  let st' := { st with nextId := st.nextId + 1 }
  let payload : OutPayload :=
    { id := some id.toJson, method := some method, params := some params }
  match sendAttempt st' transport payload true with
  | (.ok _, evs) =>
    { st := { st' with ongoings := mapSet st'.ongoings id tok },
      events := evs, outcome := .pending, id := id }
  | (.error e, evs) =>
    { st := st', events := evs, outcome := .rejected e, id := id }

/-- `JSONRPC.notify(method, ...params)`: the state is untouched; the
returned promise's outcome is the send attempt's. -/
def notify (st : EngineState) (method : String) (params : List Json)
    (transport : Except JsError Unit) : Except JsError Unit × List Event :=
  sendAttempt st transport { method := some method, params := some params } true

/-- `JSONRPC.setError(err)`: set or clear `_error`; when setting, clear
`_ongoings` and reject every drained entry with `err`. -/
def setError (st : EngineState) (err : Option JsError) : EngineState × List Event :=
  match err with
  | none => ({ st with error := none }, [])
  | some e =>
    ({ st with error := some e, ongoings := [] },
     st.ongoings.map (fun p => .settled p.2 (.rejected e)))

/-- `JSONRPC.serve(handler)`. -/
def serve (st : EngineState) (h : Handler) : EngineState :=
  { st with handler := some h }

/-- Result of processing one inbound payload: the new state, the effects,
and the error the `receive` promise rejects with, if any. -/
structure ReceiveResult where
  st : EngineState
  events : List Event := []
  thrown : Option JsError := none

/-- `payload.method!` as passed to the handler: a string field's value,
`undefined` (`none`) otherwise; request validation has already ensured
the field is absent or a non-empty string. -/
def methodOf (v : Json) : Option String :=
  match v.getField "method" with
  | some (.str s) => some s
  | _ => none

/-- `hasId` from `_handleRequest`:
`payload.id !== undefined && payload.id !== null`. -/
def hasIdOf (v : Json) : Bool :=
  match v.getField "id" with
  | none => false
  | some .null => false
  | some _ => true

/-- `...payload.params!` — the spread argument list; request validation
has already ensured the field is an array. -/
def paramsOf (v : Json) : List Json :=
  match v.getField "params" with
  | some (.arr xs) => xs
  | _ => []

/-- `const impl = this._handler ? this._handler(payload.method!) : undefined`. -/
def implOf (st : EngineState) (v : Json) : Option ImplSpec :=
  match st.handler with
  | none => none
  | some h => h (methodOf v)

/-- `JSONRPC._handleRequest(payload)` on the decoded, validated value. -/
def handleRequest (st : EngineState) (v : Json)
    (transport : Except JsError Unit) : ReceiveResult :=
  let impl := implOf st v
  let pid := v.getField "id"
  let hasId := hasIdOf v
  match impl with
  | some f =>
    match f (paramsOf v) with
    | .error err =>
      if hasId then
        -- structured errors forwarded via their own asPayload, others
        -- wrapped as internalError; an await of a failing _send rethrows
        let p := match err with
          | .rpc e => e.asPayload pid
          | .plain _ => (internalError err.message).asPayload pid
        match sendAttempt st transport p false with
        | (.ok _, evs) => { st := st, events := evs }
        | (.error e2, evs) => { st := st, events := evs, thrown := some e2 }
      else
        { st := st, thrown := some err }
    | .ok r =>
      if hasId then
        match sendAttempt st transport { id := pid, result := r } false with
        | (.ok _, evs) => { st := st, events := evs }
        | (.error e2, evs) => { st := st, events := evs, thrown := some e2 }
      else
        { st := st }
  | none =>
    if hasId then
      match sendAttempt st transport (methodNotFound.asPayload pid) false with
      | (.ok _, evs) => { st := st, events := evs }
      | (.error e2, evs) => { st := st, events := evs, thrown := some e2 }
    else
      { st := st, thrown := some (.rpc methodNotFound) }

/-- `payload.error.message` — response validation has already ensured a
present `error` member has a string `message`. -/
def errMessageOf (e : Json) : String :=
  match e.getField "message" with
  | some (.str s) => s
  | _ => ""

/-- `payload.error.code` — response validation has already ensured a
present `error` member has a numeric `code`. -/
def errCodeOf (e : Json) : Int :=
  match e.getField "code" with
  | some (.num n) => n
  | _ => 0

/-- `JSONRPC._handleResponse(payload)` on the decoded, validated value:
look up `payload.id!` among the ongoing calls; absent → discard; found →
remove the entry and reject with a `JSONRPC.Error` built from
`payload.error` when that member is truthy, else resolve with
`payload.result`. -/
def handleResponse (st : EngineState) (v : Json) : EngineState × List Event :=
  match (v.getField "id").bind Json.asId with
  | none => (st, [])
  | some key =>
    match mapGet st.ongoings key with
    | none => (st, [])
    | some tok =>
      let st' := { st with ongoings := mapDelete st.ongoings key }
      match v.getField "error" with
      | some e =>
        if jsTruthy e then
          (st', [.settled tok (.rejected (.rpc
            { message := errMessageOf e, code := errCodeOf e,
              data := e.getField "data" }))])
        else
          (st', [.settled tok (.resolved (v.getField "result"))])
      | none => (st', [.settled tok (.resolved (v.getField "result"))])

/-- `JSON.stringify` image of the error member: keys in literal order,
`data` omitted when `undefined`. -/
def ErrorObj.toJson (e : ErrorObj) : Json :=
  .obj ([("code", Json.num e.code), ("message", Json.str e.message)]
    ++ (match e.data with | none => [] | some d => [("data", d)]))

/-- `JSON.stringify` image of an outbound envelope, re-decoded: keys in
the order of the object literals in `src/index.ts`, `undefined` members
omitted. -/
def OutPayload.toJson (p : OutPayload) : Json :=
  .obj ([("jsonrpc", Json.str "2.0")]
    ++ (match p.id with | none => [] | some j => [("id", j)])
    ++ (match p.method with | none => [] | some m => [("method", Json.str m)])
    ++ (match p.params with | none => [] | some xs => [("params", Json.arr xs)])
    ++ (match p.result with | none => [] | some r => [("result", r)])
    ++ (match p.error with | none => [] | some e => [("error", e.toJson)]))

/-- `JSONRPC.receive(data, isRequest)`; `parsed` is the outcome of the
host primitive `JSON.parse(data)` (`.error msg` models it throwing an
error whose message is `msg`). -/
def receive (st : EngineState) (parsed : Except String Json) (isRequest : Bool)
    (transport : Except JsError Unit) : ReceiveResult :=
  match parsed with
  | .error msg => { st := st, thrown := some (.rpc (parseError msg)) }
  | .ok v =>
    match validate v isRequest with
    | .error msg => { st := st, thrown := some (.rpc (invalidRequest msg)) }
    | .ok _ =>
      if isRequest then
        handleRequest st v transport
      else
        let res := handleResponse st v
        { st := res.1, events := res.2 }

/-! ## Boolean characterizations of the validation rules -/

/-- The protocol tag is the literal string `"2.0"`. -/
def tagOkB (x : Option Json) : Bool :=
  match x with
  | some (.str s) => s = "2.0"
  | _ => false

/-- The identifier, if present, is a number, a string, or explicit null. -/
def idOkB (x : Option Json) : Bool :=
  match x with
  | none => true
  | some .null => true
  | some (.num _) => true
  | some (.str _) => true
  | some _ => false

/-- The method, if present, is a non-empty string. -/
def methodOptOkB (x : Option Json) : Bool :=
  match x with
  | none => true
  | some (.str s) => decide (s.length > 0)
  | some _ => false

/-- The params member is an array. -/
def paramsArrB (x : Option Json) : Bool :=
  match x with
  | some (.arr _) => true
  | _ => false

/-- The error member, if present, has a numeric code and string message. -/
def errorOkB (x : Option Json) : Bool :=
  match x with
  | none => true
  | some e =>
    (match e.getField "code" with | some (.num _) => true | _ => false) &&
    (match e.getField "message" with | some (.str _) => true | _ => false)

theorem okB_seqCheck (a b : Except String Unit) :
    okB (seqCheck a b) = (okB a && okB b) := by
  cases a <;> simp [seqCheck, okB]

theorem okB_checkTag (x : Option Json) : okB (checkTag x) = tagOkB x := by
  match x with
  | none => rfl
  | some .null | some (.bool _) | some (.num _) | some (.arr _) | some (.obj _) => rfl
  | some (.str s) =>
    by_cases h : s = "2.0" <;> simp [checkTag, tagOkB, okB, h]

theorem okB_checkIdRule (x : Option Json) : okB (checkIdRule x) = idOkB x := by
  match x with
  | none | some .null | some (.bool _) | some (.num _) | some (.str _)
  | some (.arr _) | some (.obj _) => rfl

theorem okB_checkMethodRule (x : Option Json) :
    okB (checkMethodRule x) = methodOptOkB x := by
  match x with
  | none | some .null | some (.bool _) | some (.num _) | some (.arr _)
  | some (.obj _) => rfl
  | some (.str s) =>
    by_cases h : s.length > 0 <;> simp [checkMethodRule, methodOptOkB, okB, h]

theorem okB_checkParamsRule (x : Option Json) :
    okB (checkParamsRule x) = paramsArrB x := by
  match x with
  | none | some .null | some (.bool _) | some (.num _) | some (.str _)
  | some (.arr _) | some (.obj _) => rfl

theorem okB_checkErrorRule (x : Option Json) :
    okB (checkErrorRule x) = errorOkB x := by
  match x with
  | none => rfl
  | some e =>
    simp only [checkErrorRule, errorOkB, okB_seqCheck]
    cases hc : e.getField "code" with
    | none => simp [okB]
    | some c =>
      cases hm : e.getField "message" with
      | none => cases c <;> simp [okB]
      | some m => cases c <;> cases m <;> simp [okB]

theorem okB_validateRequest (v : Json) :
    okB (validateRequest v) =
      (tagOkB (v.getField "jsonrpc") && idOkB (v.getField "id") &&
       methodOptOkB (v.getField "method") && paramsArrB (v.getField "params")) := by
  simp [validateRequest, okB_seqCheck, okB_checkTag, okB_checkIdRule,
    okB_checkMethodRule, okB_checkParamsRule, Bool.and_assoc]

theorem okB_validateResponse (v : Json) :
    okB (validateResponse v) =
      (tagOkB (v.getField "jsonrpc") && idOkB (v.getField "id") &&
       errorOkB (v.getField "error")) := by
  simp [validateResponse, okB_seqCheck, okB_checkTag, okB_checkIdRule,
    okB_checkErrorRule, Bool.and_assoc]

/-! ## Claims -/

/-- C10: every invocation of `call` consumes exactly one identifier from
the generator before transmission is attempted — with the default
generator the counter advances by one and the consumed identifier is its
previous value, whatever the poison state and whatever the transport
does; consequently identifiers of successfully registered calls need not
be consecutive, as in the closing concrete run (three calls, the middle
one failing transmission, leave entries for identifiers 0 and 2 only). -/
theorem call_always_consumes_one_id :
    (∀ (st : EngineState) (tok : Nat) (m : String) (ps : List Json)
        (tr : Except JsError Unit),
      (call st tok m ps tr).st.nextId = st.nextId + 1 ∧
      (call st tok m ps tr).id = RpcId.num st.nextId) ∧
    ((call (call (call {} 10 "a" [] (.ok ())).st 11 "b" []
        (.error (.plain "boom"))).st 12 "c" [] (.ok ())).st.ongoings
      = [(RpcId.num 0, 10), (RpcId.num 2, 12)]) := by
  constructor
  · intro st tok m ps tr
    unfold call sendAttempt
    cases h : st.error <;> cases tr <;> simp [h]
  · rfl

/-- C1: after `setError e` (for any error `e`), every call pending at
that moment is rejected with exactly `e`, the correlation table becomes
empty, and every subsequent `call` or `notify` rejects immediately with
`e` while the transport is never invoked (no `sent` event). -/
theorem setError_drains_and_poisons (st : EngineState) (e : JsError) :
    (setError st (some e)).2
        = st.ongoings.map (fun p => Event.settled p.2 (.rejected e)) ∧
    (setError st (some e)).1.ongoings = [] ∧
    (∀ tok m ps tr,
      (call (setError st (some e)).1 tok m ps tr).outcome = .rejected e ∧
      (call (setError st (some e)).1 tok m ps tr).events = []) ∧
    (∀ m ps tr, notify (setError st (some e)).1 m ps tr = (.error e, [])) := by
  refine ⟨rfl, rfl, ?_, ?_⟩
  · intro tok m ps tr
    unfold call sendAttempt setError
    simp
  · intro m ps tr
    unfold notify sendAttempt setError
    simp

/-- C7: when the engine is healthy, `call` registers the correlation
entry exactly when the transport send resolves: on success the table
gains the entry for the fresh identifier and the promise stays pending;
on rejection the promise rejects with the transport's error and the
table is left unchanged (no dangling entry). -/
theorem call_entry_iff_send_ok (st : EngineState) (tok : Nat) (m : String)
    (ps : List Json) (h : st.error = none) :
    ((call st tok m ps (.ok ())).st.ongoings
        = mapSet st.ongoings (RpcId.num st.nextId) tok ∧
     (call st tok m ps (.ok ())).outcome = .pending) ∧
    (∀ e, (call st tok m ps (.error e)).outcome = .rejected e ∧
      (call st tok m ps (.error e)).st.ongoings = st.ongoings) := by
  constructor
  · unfold call sendAttempt
    simp [h]
  · intro e
    unfold call sendAttempt
    simp [h]

/-- Witness for C7 at a concrete state: from the fresh engine, a call
whose transmission succeeds registers identifier 0, and a call whose
transmission rejects leaves the table empty and rejects with the
transport's error. -/
theorem call_entry_iff_send_ok_witness :
    (call {} 0 "m" [.num 1] (.ok ())).st.ongoings = [(RpcId.num 0, 0)] ∧
    (call {} 0 "m" [.num 1] (.error (.plain "x"))).outcome
        = .rejected (.plain "x") ∧
    (call {} 0 "m" [.num 1] (.error (.plain "x"))).st.ongoings = [] := by
  have h := call_entry_iff_send_ok {} 0 "m" [.num 1] rfl
  exact ⟨h.1.1.trans rfl, (h.2 (.plain "x")).1, (h.2 (.plain "x")).2⟩

theorem string_length_pos_iff_ne_empty (s : String) : 0 < s.length ↔ s ≠ "" := by
  cases s with
  | mk l =>
    cases l <;> simp [String.length, String.ext_iff]

/-- Modelled from the words of claim C3 (not from the source), for
comparison with `validate`: request-direction validity with `method` a
required non-empty string and `params` an array only if present. -/
def requestValidClaimed (v : Json) : Bool :=
  tagOkB (v.getField "jsonrpc") && idOkB (v.getField "id") &&
  (match v.getField "method" with
    | some (.str s) => decide (s.length > 0)
    | _ => false) &&
  (match v.getField "params" with
    | none => true
    | some (.arr _) => true
    | _ => false)

/-- C3 counterexample: `{"jsonrpc":"2.0","method":"x"}` (no `params`) is
valid per the claim but rejected by the code, and
`{"jsonrpc":"2.0","params":[]}` (no `method`) is invalid per the claim
but accepted by the code: in `requestScheme`, `method` is wrapped in
`V.optional` while `params` is not. -/
theorem validate_request_optionality_counterexample :
    requestValidClaimed (.obj [("jsonrpc", .str "2.0"), ("method", .str "x")])
        = true ∧
    okB (validate (.obj [("jsonrpc", .str "2.0"), ("method", .str "x")]) true)
        = false ∧
    requestValidClaimed (.obj [("jsonrpc", .str "2.0"), ("params", .arr [])])
        = false ∧
    okB (validate (.obj [("jsonrpc", .str "2.0"), ("params", .arr [])]) true)
        = true :=
  ⟨rfl, rfl, rfl, rfl⟩

/-- C3 amended: `validate` in request direction succeeds exactly when the
tag is the literal `"2.0"`, the identifier (if present) is a number,
string or explicit null, `method` — if present — is a non-empty string,
and `params` is present and an array (a request-direction payload lacking
`params` is rejected; one lacking `method` is accepted); unknown extra
fields never cause rejection.  In response direction it succeeds exactly
when tag and identifier are as above and `error`, if present, has a
numeric `code` and a string `message`. -/
theorem validate_characterization (v : Json) :
    okB (validate v true) =
      (tagOkB (v.getField "jsonrpc") && idOkB (v.getField "id") &&
       methodOptOkB (v.getField "method") && paramsArrB (v.getField "params")) ∧
    okB (validate v false) =
      (tagOkB (v.getField "jsonrpc") && idOkB (v.getField "id") &&
       errorOkB (v.getField "error")) :=
  ⟨okB_validateRequest v, okB_validateResponse v⟩

/-- C4 counterexample: the serialized Request envelope
`{"jsonrpc":"2.0","id":0,"method":"m","params":[]}` validated in
response direction succeeds (the claim says it fails): `responseScheme`
leaves `method`, `params` and `result` unconstrained and its only extra
rule is on a present `error` member. -/
theorem request_validates_as_response_counterexample :
    okB (validate (OutPayload.toJson
      { id := some (.num 0), method := some "m", params := some [] }) false)
      = true := rfl

/-- C4 amended: serializing the Request envelope built by `call`
(identifier from the generator, `params` always an array) and validating
it in request direction succeeds exactly when the method is non-empty;
validated in response direction the same object also succeeds rather
than failing. -/
theorem request_roundtrip_validation (id : RpcId) (m : String) (ps : List Json) :
    okB (validate (OutPayload.toJson
      { id := some id.toJson, method := some m, params := some ps }) true)
      = decide (m ≠ "") ∧
    okB (validate (OutPayload.toJson
      { id := some id.toJson, method := some m, params := some ps }) false)
      = true := by
  have hm : decide (0 < m.length) = decide (m ≠ "") :=
    decide_eq_decide.mpr (string_length_pos_iff_ne_empty m)
  cases id <;>
    simp [validate, OutPayload.toJson, okB_validateRequest, okB_validateResponse,
      Json.getField, List.find?, tagOkB, idOkB, methodOptOkB, paramsArrB,
      errorOkB, RpcId.toJson, hm]

theorem receive_ok_request (st : EngineState) (v : Json)
    (tr : Except JsError Unit) (h : validate v true = .ok ()) :
    receive st (.ok v) true tr = handleRequest st v tr := by
  simp [receive, h]

theorem receive_ok_response (st : EngineState) (v : Json)
    (tr : Except JsError Unit) (h : validate v false = .ok ()) :
    receive st (.ok v) false tr =
      { st := (handleResponse st v).1, events := (handleResponse st v).2 } := by
  simp [receive, h]

/-- C6: an inbound request for a method with no registered implementation
produces, when the identifier is present, exactly one outbound send — a
Response-Error with code `-32601` and message `"Method not found"`
echoing the request's identifier — and no state change; when the
identifier is absent, no outbound message at all and a method-not-found
error thrown to the caller of `receive`. -/
theorem receive_method_not_found (st : EngineState) (v : Json)
    (hval : validate v true = .ok ()) (himpl : implOf st v = none)
    (herr : st.error = none) :
    (hasIdOf v = true → ∀ tr,
      (receive st (.ok v) true tr).events
        = [.sent
            { id := v.getField "id",
              error := some { code := -32601, message := "Method not found",
                              data := none } } false] ∧
      (receive st (.ok v) true tr).st = st) ∧
    (hasIdOf v = false → ∀ tr,
      receive st (.ok v) true tr
        = { st := st, events := [], thrown := some (.rpc methodNotFound) }) := by
  constructor
  · intro hid tr
    rw [receive_ok_request st v tr hval]
    unfold handleRequest sendAttempt
    rw [himpl, herr, hid]
    cases tr <;> simp [RpcError.asPayload, methodNotFound]
  · intro hid tr
    rw [receive_ok_request st v tr hval]
    unfold handleRequest
    rw [himpl, hid]
    simp

/-- Witness for C6: with no handler served, the request
`{"jsonrpc":"2.0","id":7,"method":"x","params":[]}` triggers exactly one
send of the −32601 Response-Error echoing id 7, and the same request
without `id` triggers no send and throws method-not-found. -/
theorem receive_method_not_found_witness :
    (receive {} (.ok (.obj [("jsonrpc", .str "2.0"), ("id", .num 7),
        ("method", .str "x"), ("params", .arr [])])) true (.ok ())).events
      = [.sent
          { id := some (.num 7),
            error := some { code := -32601, message := "Method not found",
                            data := none } } false] ∧
    receive {} (.ok (.obj [("jsonrpc", .str "2.0"),
        ("method", .str "x"), ("params", .arr [])])) true (.ok ())
      = { st := {}, events := [], thrown := some (.rpc methodNotFound) } := by
  constructor
  · exact ((receive_method_not_found {} (.obj [("jsonrpc", .str "2.0"),
      ("id", .num 7), ("method", .str "x"), ("params", .arr [])])
      rfl rfl rfl).1 rfl (.ok ())).1
  · exact (receive_method_not_found {} (.obj [("jsonrpc", .str "2.0"),
      ("method", .str "x"), ("params", .arr [])]) rfl rfl rfl).2 rfl (.ok ())

/-- A request envelope `{"jsonrpc":"2.0","id":<id>,"method":"m","params":[]}`
used as concrete input. -/
def reqWithId (id : Json) : Json :=
  .obj [("jsonrpc", .str "2.0"), ("id", id), ("method", .str "m"),
        ("params", .arr [])]

/-- The same request without an identifier. -/
def reqNoId : Json :=
  .obj [("jsonrpc", .str "2.0"), ("method", .str "m"), ("params", .arr [])]

/-- An engine whose served implementation throws the structured
application error `{message := "app", code := 5}`. -/
def stRpcThrow : EngineState :=
  { handler := some (fun _ => some (fun _ =>
      .error (.rpc { message := "app", code := 5 }))) }

/-- An engine whose served implementation throws a plain (unstructured)
exception with message `"oops"`. -/
def stPlainThrow : EngineState :=
  { handler := some (fun _ => some (fun _ => .error (.plain "oops"))) }

/-- C8: when the served implementation of an identifier-bearing request
throws, a structured `JSONRPC.Error` is forwarded as-is — its own code,
message and data become the Response-Error's error member — while any
other exception is wrapped as `Internal error` with code `-32603`; when
the identifier is absent the failure is rethrown out of `receive` and
nothing is sent. -/
theorem receive_handler_failure_routing (st : EngineState) (v : Json)
    (f : ImplSpec) (err : JsError)
    (hval : validate v true = .ok ()) (himpl : implOf st v = some f)
    (hthrow : f (paramsOf v) = .error err) (herr : st.error = none) :
    (hasIdOf v = true → ∀ e, err = .rpc e →
      receive st (.ok v) true (.ok ())
        = { st := st,
            events := [.sent
              { id := v.getField "id",
                error := some { code := e.code, message := e.message,
                                data := e.data } } false],
            thrown := none }) ∧
    (hasIdOf v = true → ∀ m, err = .plain m →
      receive st (.ok v) true (.ok ())
        = { st := st,
            events := [.sent
              { id := v.getField "id",
                error := some { code := -32603,
                                message := "Internal error: " ++ m,
                                data := none } } false],
            thrown := none }) ∧
    (hasIdOf v = false → ∀ tr,
      receive st (.ok v) true tr
        = { st := st, events := [], thrown := some err }) := by
  refine ⟨?_, ?_, ?_⟩
  · intro hid e he
    subst he
    rw [receive_ok_request st v (.ok ()) hval]
    simp only [handleRequest, sendAttempt, himpl, hthrow, herr, hid]
    simp [RpcError.asPayload, JsError.message]
  · intro hid m hm
    subst hm
    rw [receive_ok_request st v (.ok ()) hval]
    simp only [handleRequest, sendAttempt, himpl, hthrow, herr, hid]
    simp [RpcError.asPayload, JsError.message, internalError]
  · intro hid tr
    rw [receive_ok_request st v tr hval]
    simp only [handleRequest, himpl, hthrow, hid]
    simp

/-- Witness for C8: the structured throw is forwarded with code 5 and
message `"app"`, the plain throw becomes code `-32603` with message
`"Internal error: oops"`, and without an identifier the plain throw is
rethrown with no send. -/
theorem receive_handler_failure_routing_witness :
    receive stRpcThrow (.ok (reqWithId (.num 3))) true (.ok ())
      = { st := stRpcThrow,
          events := [.sent
            { id := some (.num 3),
              error := some { code := 5, message := "app", data := none } }
            false],
          thrown := none } ∧
    receive stPlainThrow (.ok (reqWithId (.num 3))) true (.ok ())
      = { st := stPlainThrow,
          events := [.sent
            { id := some (.num 3),
              error := some { code := -32603,
                              message := "Internal error: oops",
                              data := none } } false],
          thrown := none } ∧
    receive stPlainThrow (.ok reqNoId) true (.ok ())
      = { st := stPlainThrow, events := [], thrown := some (.plain "oops") } := by
  refine ⟨?_, ?_, ?_⟩
  · exact (receive_handler_failure_routing stRpcThrow (reqWithId (.num 3))
      (fun _ => .error (.rpc { message := "app", code := 5 }))
      (.rpc { message := "app", code := 5 }) rfl rfl rfl rfl).1 rfl
      { message := "app", code := 5 } rfl
  · exact ((receive_handler_failure_routing stPlainThrow (reqWithId (.num 3))
      (fun _ => .error (.plain "oops")) (.plain "oops")
      rfl rfl rfl rfl).2).1 rfl "oops" rfl
  · exact ((receive_handler_failure_routing stPlainThrow reqNoId
      (fun _ => .error (.plain "oops")) (.plain "oops")
      rfl rfl rfl rfl).2).2 rfl (.ok ())

/-- An engine whose served implementation returns the number 7. -/
def stOkImpl : EngineState :=
  { handler := some (fun _ => some (fun _ => .ok (some (.num 7)))) }

/-- C5: identifier presence is `id !== undefined && id !== null`, so an
inbound request whose identifier is the number 0 is reply-expecting: on
implementation success exactly one Response-Success with id 0 is sent;
on implementation failure exactly one Response-Error with id 0 is sent;
on a missing method exactly one `-32601` Response-Error with id 0 is
sent — the reply is never skipped. -/
theorem receive_id_zero_reply_expected (st : EngineState) (v : Json)
    (hval : validate v true = .ok ()) (hid : v.getField "id" = some (.num 0))
    (herr : st.error = none) :
    (∀ f r, implOf st v = some f → f (paramsOf v) = .ok r →
      receive st (.ok v) true (.ok ())
        = { st := st,
            events := [.sent { id := some (.num 0), result := r } false],
            thrown := none }) ∧
    (∀ f err, implOf st v = some f → f (paramsOf v) = .error err →
      (receive st (.ok v) true (.ok ())).thrown = none ∧
      ∃ eo, (receive st (.ok v) true (.ok ())).events
        = [.sent { id := some (.num 0), error := some eo } false]) ∧
    (implOf st v = none →
      receive st (.ok v) true (.ok ())
        = { st := st,
            events := [.sent
              { id := some (.num 0),
                error := some { code := -32601, message := "Method not found",
                                data := none } } false],
            thrown := none }) := by
  have hhas : hasIdOf v = true := by simp [hasIdOf, hid]
  refine ⟨?_, ?_, ?_⟩
  · intro f r himpl hfr
    rw [receive_ok_request st v (.ok ()) hval]
    simp only [handleRequest, sendAttempt, himpl, hfr, herr, hhas, hid]
    simp
  · intro f err himpl hfr
    rw [receive_ok_request st v (.ok ()) hval]
    simp only [handleRequest, sendAttempt, himpl, hfr, herr, hhas, hid]
    cases err with
    | rpc e =>
      exact ⟨rfl, ⟨{ code := e.code, message := e.message, data := e.data },
        by simp [RpcError.asPayload]⟩⟩
    | plain m =>
      exact ⟨rfl, ⟨{ code := -32603,
                     message := "Internal error: " ++ m,
                     data := none },
        by simp [RpcError.asPayload, internalError, JsError.message]⟩⟩
  · intro himpl
    rw [receive_ok_request st v (.ok ()) hval]
    simp only [handleRequest, sendAttempt, himpl, herr, hhas, hid]
    simp [RpcError.asPayload, methodNotFound]

/-- Witness for C5: for `{"jsonrpc":"2.0","id":0,"method":"m","params":[]}`,
a succeeding implementation sends a Response-Success with id 0, a
throwing implementation sends a Response-Error with id 0, and a missing
implementation sends the `-32601` Response-Error with id 0. -/
theorem receive_id_zero_reply_expected_witness :
    receive stOkImpl (.ok (reqWithId (.num 0))) true (.ok ())
      = { st := stOkImpl,
          events := [.sent { id := some (.num 0), result := some (.num 7) }
            false],
          thrown := none } ∧
    ((receive stPlainThrow (.ok (reqWithId (.num 0))) true (.ok ())).thrown
        = none ∧
     ∃ eo, (receive stPlainThrow (.ok (reqWithId (.num 0))) true (.ok ())).events
        = [.sent { id := some (.num 0), error := some eo } false]) ∧
    receive {} (.ok (reqWithId (.num 0))) true (.ok ())
      = { st := {},
          events := [.sent
            { id := some (.num 0),
              error := some { code := -32601, message := "Method not found",
                              data := none } } false],
          thrown := none } := by
  refine ⟨?_, ?_, ?_⟩
  · exact (receive_id_zero_reply_expected stOkImpl (reqWithId (.num 0))
      rfl rfl rfl).1 (fun _ => .ok (some (.num 7))) (some (.num 7)) rfl rfl
  · exact ((receive_id_zero_reply_expected stPlainThrow (reqWithId (.num 0))
      rfl rfl rfl).2).1 (fun _ => .error (.plain "oops")) (.plain "oops") rfl rfl
  · exact ((receive_id_zero_reply_expected {} (reqWithId (.num 0))
      rfl rfl rfl).2).2 rfl

/-- C2 counterexample: the request
`{"jsonrpc":"2.0","id":7,"method":5,"params":[]}` carries an identifier,
yet its structural-validation failure is thrown to the caller of
`receive` as an Invalid-request error and nothing is sent on the wire —
`receive` throws on parse and validation failures before `_handleRequest`
ever runs, id or no id. -/
theorem request_error_conversion_counterexample :
    (receive {} (.ok (.obj [("jsonrpc", .str "2.0"), ("id", .num 7),
        ("method", .num 5), ("params", .arr [])])) true (.ok ())).events
      = [] ∧
    (receive {} (.ok (.obj [("jsonrpc", .str "2.0"), ("id", .num 7),
        ("method", .num 5), ("params", .arr [])])) true (.ok ())).thrown
      = some (.rpc (invalidRequest "expected string")) :=
  ⟨rfl, rfl⟩

/-- C2 amended: JSON parse failures and structural-validation failures
always propagate out of `receive` to its caller (wrapped as Parse-error /
Invalid-request) with nothing sent, whether or not an identifier is
present; errors arising in dispatch — an implementation throw or a
missing method — on an identifier-bearing request are converted into an
outbound Response-Error and not thrown (engine healthy, response
transmission succeeding), while on an identifier-less request nothing is
sent and the error propagates out of `receive`. -/
theorem receive_error_propagation (st : EngineState) :
    (∀ msg isReq tr, receive st (.error msg) isReq tr
        = { st := st, events := [], thrown := some (.rpc (parseError msg)) }) ∧
    (∀ v isReq tr m, validate v isReq = .error m →
      receive st (.ok v) isReq tr
        = { st := st, events := [], thrown := some (.rpc (invalidRequest m)) }) ∧
    (∀ v f err, validate v true = .ok () → st.error = none →
      hasIdOf v = true → implOf st v = some f → f (paramsOf v) = .error err →
      (receive st (.ok v) true (.ok ())).thrown = none ∧
      ∃ p, (receive st (.ok v) true (.ok ())).events = [.sent p false] ∧
        p.error ≠ none) ∧
    (∀ v, validate v true = .ok () → st.error = none → hasIdOf v = true →
      implOf st v = none →
      (receive st (.ok v) true (.ok ())).thrown = none ∧
      ∃ p, (receive st (.ok v) true (.ok ())).events = [.sent p false] ∧
        p.error ≠ none) ∧
    (∀ v f err tr, validate v true = .ok () → hasIdOf v = false →
      implOf st v = some f → f (paramsOf v) = .error err →
      receive st (.ok v) true tr
        = { st := st, events := [], thrown := some err }) ∧
    (∀ v tr, validate v true = .ok () → hasIdOf v = false → implOf st v = none →
      receive st (.ok v) true tr
        = { st := st, events := [], thrown := some (.rpc methodNotFound) }) := by
  refine ⟨?_, ?_, ?_, ?_, ?_, ?_⟩
  · intro msg isReq tr
    simp [receive]
  · intro v isReq tr m hm
    simp [receive, hm]
  · intro v f err hval herr hid himpl hfr
    rw [receive_ok_request st v (.ok ()) hval]
    simp only [handleRequest, sendAttempt, himpl, hfr, herr, hid]
    cases err with
    | rpc e =>
      exact ⟨rfl, ⟨e.asPayload (v.getField "id"), by simp [RpcError.asPayload]⟩⟩
    | plain m =>
      exact ⟨rfl, ⟨(internalError m).asPayload (v.getField "id"),
        by simp [RpcError.asPayload, internalError, JsError.message]⟩⟩
  · intro v hval herr hid himpl
    rw [receive_ok_request st v (.ok ()) hval]
    simp only [handleRequest, sendAttempt, himpl, herr, hid]
    exact ⟨rfl, ⟨methodNotFound.asPayload (v.getField "id"),
      by simp [RpcError.asPayload]⟩⟩
  · intro v f err tr hval hid himpl hfr
    rw [receive_ok_request st v tr hval]
    simp only [handleRequest, himpl, hfr, hid]
    simp
  · intro v tr hval hid himpl
    rw [receive_ok_request st v tr hval]
    simp only [handleRequest, himpl, hid]
    simp

/-- Witness for C2 (amended) at concrete inputs: a parse failure and a
validation failure are thrown with nothing sent; a throwing
implementation and a missing method on an id-bearing request send one
Response-Error without throwing; the same two dispatch errors on an
id-less request throw with nothing sent. -/
theorem receive_error_propagation_witness :
    receive {} (.error "bad json") true (.ok ())
      = { st := {}, events := [], thrown := some (.rpc (parseError "bad json")) } ∧
    receive {} (.ok (.obj [("jsonrpc", .str "1.0")])) false (.ok ())
      = { st := {}, events := [],
          thrown := some (.rpc (invalidRequest "expected '2.0'")) } ∧
    ((receive stPlainThrow (.ok (reqWithId (.num 3))) true (.ok ())).thrown
        = none ∧
     ∃ p, (receive stPlainThrow (.ok (reqWithId (.num 3))) true (.ok ())).events
        = [.sent p false] ∧ p.error ≠ none) ∧
    ((receive {} (.ok (reqWithId (.num 1))) true (.ok ())).thrown = none ∧
     ∃ p, (receive {} (.ok (reqWithId (.num 1))) true (.ok ())).events
        = [.sent p false] ∧ p.error ≠ none) ∧
    receive stPlainThrow (.ok reqNoId) true (.ok ())
      = { st := stPlainThrow, events := [], thrown := some (.plain "oops") } ∧
    receive {} (.ok reqNoId) true (.ok ())
      = { st := {}, events := [], thrown := some (.rpc methodNotFound) } := by
  refine ⟨?_, ?_, ?_, ?_, ?_, ?_⟩
  · exact (receive_error_propagation {}).1 "bad json" true (.ok ())
  · exact (receive_error_propagation {}).2.1 (.obj [("jsonrpc", .str "1.0")])
      false (.ok ()) "expected '2.0'" rfl
  · exact (receive_error_propagation stPlainThrow).2.2.1 (reqWithId (.num 3))
      (fun _ => .error (.plain "oops")) (.plain "oops") rfl rfl rfl rfl rfl
  · exact (receive_error_propagation {}).2.2.2.1 (reqWithId (.num 1))
      rfl rfl rfl rfl
  · exact (receive_error_propagation stPlainThrow).2.2.2.2.1 reqNoId
      (fun _ => .error (.plain "oops")) (.plain "oops") (.ok ()) rfl rfl rfl rfl
  · exact (receive_error_propagation {}).2.2.2.2.2 reqNoId (.ok ()) rfl rfl rfl

/-- C9: for a response payload delivered to `receive(data, false)`: when
its identifier matches a pending entry, the entry is removed and the
pending call is rejected with an error carrying the payload's
`error.message` and `error.code` when an `error` member is present, else
resolved with exactly the payload's `result`; when no entry matches, the
payload is discarded silently — no event, no throw, no state change. -/
theorem receive_response_correlation (st : EngineState) (v : Json)
    (tr : Except JsError Unit) (hval : validate v false = .ok ()) :
    (∀ key tok, (v.getField "id").bind Json.asId = some key →
      mapGet st.ongoings key = some tok →
      ((∀ e, v.getField "error" = some e →
        receive st (.ok v) false tr
          = { st := { st with ongoings := mapDelete st.ongoings key },
              events := [.settled tok (.rejected (.rpc
                { message := errMessageOf e, code := errCodeOf e,
                  data := e.getField "data" }))],
              thrown := none }) ∧
       (v.getField "error" = none →
        receive st (.ok v) false tr
          = { st := { st with ongoings := mapDelete st.ongoings key },
              events := [.settled tok (.resolved (v.getField "result"))],
              thrown := none }))) ∧
    (((v.getField "id").bind Json.asId).bind (mapGet st.ongoings) = none →
      receive st (.ok v) false tr = { st := st, events := [], thrown := none }) := by
  have hok : okB (validateResponse v) = true := by
    have : validate v false = validateResponse v := rfl
    rw [this] at hval
    rw [hval]
    rfl
  rw [okB_validateResponse] at hok
  simp only [Bool.and_eq_true] at hok
  constructor
  · intro key tok hkey htok
    constructor
    · intro e hke
      have herrok := hok.2
      rw [hke] at herrok
      have htru : jsTruthy e = true := by
        cases e <;> first
        | rfl
        | simp [errorOkB, Json.getField] at herrok
      rw [receive_ok_response st v tr hval]
      simp only [handleResponse, hkey, htok, hke, htru]
      simp
    · intro hke
      rw [receive_ok_response st v tr hval]
      simp only [handleResponse, hkey, htok, hke]
  · intro hnone
    rw [receive_ok_response st v tr hval]
    cases hkey : (v.getField "id").bind Json.asId with
    | none =>
      simp only [handleResponse, hkey]
    | some key =>
      rw [hkey] at hnone
      have hget : mapGet st.ongoings key = none := hnone
      simp only [handleResponse, hkey, hget]

/-- Witness for C9: with one pending call registered under id 1, a
response with id 1 and result 42 resolves it and empties the table, a
response with id 1 and an error member rejects it with that error's
message and code, and a response with unmatched id 9 changes nothing. -/
theorem receive_response_correlation_witness :
    receive { ongoings := [(.num 1, 5)] }
        (.ok (.obj [("jsonrpc", .str "2.0"), ("id", .num 1),
          ("result", .num 42)])) false (.ok ())
      = { st := { ongoings := [] },
          events := [.settled 5 (.resolved (some (.num 42)))],
          thrown := none } ∧
    receive { ongoings := [(.num 1, 5)] }
        (.ok (.obj [("jsonrpc", .str "2.0"), ("id", .num 1),
          ("error", .obj [("code", .num 2), ("message", .str "bad")])]))
        false (.ok ())
      = { st := { ongoings := [] },
          events := [.settled 5 (.rejected (.rpc
            { message := "bad", code := 2, data := none }))],
          thrown := none } ∧
    receive { ongoings := [(.num 1, 5)] }
        (.ok (.obj [("jsonrpc", .str "2.0"), ("id", .num 9),
          ("result", .num 42)])) false (.ok ())
      = { st := { ongoings := [(.num 1, 5)] }, events := [], thrown := none } := by
  refine ⟨?_, ?_, ?_⟩
  · exact (((receive_response_correlation { ongoings := [(.num 1, 5)] }
      (.obj [("jsonrpc", .str "2.0"), ("id", .num 1), ("result", .num 42)])
      (.ok ()) rfl).1 (.num 1) 5 rfl rfl).2 rfl).trans rfl
  · exact (((receive_response_correlation { ongoings := [(.num 1, 5)] }
      (.obj [("jsonrpc", .str "2.0"), ("id", .num 1),
        ("error", .obj [("code", .num 2), ("message", .str "bad")])])
      (.ok ()) rfl).1 (.num 1) 5 rfl rfl).1
      (.obj [("code", .num 2), ("message", .str "bad")]) rfl).trans rfl
  · exact (receive_response_correlation { ongoings := [(.num 1, 5)] }
      (.obj [("jsonrpc", .str "2.0"), ("id", .num 9), ("result", .num 42)])
      (.ok ()) rfl).2 rfl
